import Mathlib

/-!
# Verification of the common-fate/observability telemetry launcher

Shallow embedding of the pipeline lifecycle orchestrator
(`launcher/launcher.go`, `pipelines/trace.go`) in Lean 4.

External collaborators (OTLP exporter construction, batch-processor and
exporter shutdown, host-name detection, environment attribute detection)
are modelled by a `World` record holding the outcome each collaborator
would produce when invoked; the embedded functions consume those outcomes
exactly where the Go code calls the collaborator.  Process-wide side
effects (installing providers, propagators, the error handler) and
collaborator invocations are recorded in an ordered `Event` list.
Fatal logging (`Fatalf`, which terminates the process) is modelled as an
`Except.error` result that aborts the remaining computation.
-/

set_option autoImplicit false

namespace Observability

/-- Semantic-convention attribute key `host.name` (semconv v1.5.0). -/
def AttributeHostName : String := "host.name"

/-- Semantic-convention attribute key `service.name`. -/
def AttributeServiceName : String := "service.name"

/-- Semantic-convention attribute key `service.version`. -/
def AttributeServiceVersion : String := "service.version"

/-- Semantic-convention attribute key `telemetry.sdk.name`. -/
def AttributeTelemetrySDKName : String := "telemetry.sdk.name"

/-- Semantic-convention attribute key `telemetry.sdk.language`. -/
def AttributeTelemetrySDKLanguage : String := "telemetry.sdk.language"

/-- Semantic-convention attribute key `telemetry.sdk.version`. -/
def AttributeTelemetrySDKVersion : String := "telemetry.sdk.version"

/-- One resource attribute: a key/string-value pair
(`attribute.KeyValue` restricted to string values, as used by the code). -/
structure KeyValue where
  key : String
  value : String
deriving DecidableEq, Repr

/-- The four propagation codecs of the fixed capability table in
`configurePropagators` (`pipelines/trace.go`). -/
inductive PropagatorKind where
  | b3
  | baggage
  | tracecontext
  | ottrace
deriving DecidableEq, Repr

/-- The fixed map literal `propagatorsMap` of `configurePropagators`:
a Go map lookup returning the zero value (`nil`, here `none`) for
unknown keys. -/
def propagatorsMap (key : String) : Option PropagatorKind :=
  if key == "b3" then some PropagatorKind.b3
  else if key == "baggage" then some PropagatorKind.baggage
  else if key == "tracecontext" then some PropagatorKind.tracecontext
  else if key == "ottrace" then some PropagatorKind.ottrace
  else none

/-- The error message returned by `configurePropagators` when no requested
key is supported (`pipelines/trace.go:75`). -/
def unsupportedPropagatorsMsg : String :=
  "invalid configuration: unsupported propagators. Supported options: b3,baggage,tracecontext,ottrace"

/-- The supported propagator keys, in the order the error message lists them. -/
def supportedPropagatorKeys : List String :=
  ["b3", "baggage", "tracecontext", "ottrace"]

/-- Embedding of `configurePropagators` (`pipelines/trace.go:60-81`): look each requested
key up in the fixed table, silently skipping unknown keys; fail if the
selected list is empty; otherwise return the codecs composed in list order
(the Go code then installs the composite propagator, recorded as an event
by the caller in this embedding). -/
def configurePropagators (requested : List String) : Except String (List PropagatorKind) :=
  let props := requested.filterMap propagatorsMap
  if props.length = 0 then
    Except.error unsupportedPropagatorsMsg
  else
    Except.ok props

/-- Identity tag of a registered shutdown callback: which pipeline's
closure it is. -/
inductive CbTag where
  | trace
  | metrics
deriving DecidableEq, Repr

/-- Observable actions of the embedded code: invocations of external
collaborators and process-wide installations, in execution order. -/
inductive Event where
  /-- Event: `otlptrace.New` was invoked (span exporter construction attempted). -/
  | traceExporterNew
  /-- the metrics exporter construction was attempted (`NewMetricsPipeline`). -/
  | metricsExporterNew
  /-- Event: `otel.SetTextMapPropagator` with the composed codecs. -/
  | setTextMapPropagator (props : List PropagatorKind)
  /-- Event: `otel.SetTracerProvider`. -/
  | setTracerProvider
  /-- the metrics provider was installed process-wide. -/
  | setMeterProvider
  /-- Event: `otel.SetErrorHandler`. -/
  | setErrorHandler
  /-- Event: `bsp.Shutdown` (trace batch span processor shutdown). -/
  | bspShutdown
  /-- Event: `spanExporter.Shutdown`. -/
  | traceExporterShutdown
  /-- the metrics pipeline's shutdown callback body ran. -/
  | metricsPipelineShutdown
deriving DecidableEq, Repr

/-- Outcomes the external collaborators would produce when invoked.
`Except.error e` means the collaborator call would return error `e`. -/
structure World where
  /-- outcome of `otlptrace.New` (span exporter construction). -/
  traceExporterNew : Except String Unit
  /-- outcome of constructing the metrics exporter. -/
  metricsExporterNew : Except String Unit
  /-- outcome of `bsp.Shutdown(ctx)` during the trace callback. -/
  bspShutdown : Except String Unit
  /-- outcome of `spanExporter.Shutdown(ctx)` during the trace callback. -/
  traceExporterShutdown : Except String Unit
  /-- outcome of the metrics pipeline's shutdown callback. -/
  metricsShutdown : Except String Unit
deriving Repr

/-- Embedding of `PipelineConfig` (`pipelines/config.go`). -/
structure PipelineConfig where
  Endpoint : String
  Insecure : Bool
  Headers : List (String × String)
  Resource : List KeyValue
  ReportingPeriod : String
  BatchTimeout : Nat
  Propagators : List String
deriving Repr

/-- Embedding of `NewTracePipeline` (`pipelines/trace.go:18-41`): construct the span
exporter (failure is returned wrapped in a message), build the batching
processor and provider, configure propagators (failure returned as-is,
provider not installed), install the tracer provider, and return the
shutdown callback (identified here by its tag `CbTag.trace`). -/
def NewTracePipeline (w : World) (c : PipelineConfig) : List Event × Except String CbTag :=
  match w.traceExporterNew with
  | Except.error e => ([Event.traceExporterNew], Except.error ("failed to create span exporter: " ++ e))
  | Except.ok _ =>
    match configurePropagators c.Propagators with
    | Except.error e => ([Event.traceExporterNew], Except.error e)
    | Except.ok props =>
      ([Event.traceExporterNew, Event.setTextMapPropagator props, Event.setTracerProvider],
        Except.ok CbTag.trace)

/-- Modelled from the spec: `NewMetricsPipeline` lives in `pipelines/metrics.go`,
which is not among the given source files; §4.4 of the spec describes it:
construct the metrics exporter toward the configured endpoint (failure is an
error), wrap it in a batching controller, install the process-wide meter
provider, and return a shutdown callback. -/
def NewMetricsPipeline (w : World) (_c : PipelineConfig) : List Event × Except String CbTag :=
  match w.metricsExporterNew with
  | Except.error e => ([Event.metricsExporterNew], Except.error e)
  | Except.ok _ =>
    ([Event.metricsExporterNew, Event.setMeterProvider], Except.ok CbTag.metrics)

/-- The shutdown callback returned by `NewTracePipeline`
(`pipelines/trace.go:37-40`): shut the batch span processor down with the
error discarded, then shut the span exporter down and return its result. -/
def traceShutdownCallback (w : World) : List Event × Except String Unit :=
  let _bspErr := w.bspShutdown
  ([Event.bspShutdown, Event.traceExporterShutdown], w.traceExporterShutdown)

/-- Modelled from the spec: the shutdown callback returned by the metrics
pipeline (§4.4 step 6) drains and closes the metrics pipeline and
propagates the close error to the caller of shutdown. -/
def metricsShutdownCallback (w : World) : List Event × Except String Unit :=
  ([Event.metricsPipelineShutdown], w.metricsShutdown)

/-- Invoke a registered shutdown callback, by tag. -/
def runCallback (w : World) : CbTag → List Event × Except String Unit
  | CbTag.trace => traceShutdownCallback w
  | CbTag.metrics => metricsShutdownCallback w

/-- Embedding of `Config` (`launcher/launcher.go:26-44`): the merged configuration.
Maps are modelled by association lists in one iteration order; `Resource`
is the built resource's attribute list; fields of collaborator type
(logger, error handler, context) are omitted. -/
structure Config where
  SpanExporterEndpoint : String
  SpanExporterEndpointInsecure : Bool
  ServiceName : String
  ServiceVersion : String
  Headers : List (String × String)
  MetricExporterEndpoint : String
  MetricExporterEndpointInsecure : Bool
  MetricsEnabled : Bool
  LogLevel : String
  Propagators : List String
  MetricReportingPeriod : String
  BatchTimeout : Nat
  resourceAttributes : List (String × String)
  Resource : List KeyValue
deriving Repr

/-- The loop of `validateConfiguration` (`launcher/launcher.go:49-56`):
walk the resource attributes; at the FIRST attribute whose key is
`service.name`, record whether its value is non-empty and `break`. -/
def serviceNameScan : List KeyValue → Bool
  | [] => false
  | kv :: rest =>
    if kv.key == AttributeServiceName then decide (0 < kv.value.length)
    else serviceNameScan rest

/-- The error message of `validateConfiguration` (`launcher/launcher.go:58`). -/
def serviceNameMissingMsg : String :=
  "invalid configuration: service name missing. Configure WithServiceName in code"

/-- Embedding of `validateConfiguration` (`launcher/launcher.go:46-63`): when the explicit
`ServiceName` field is empty, the resource must carry a non-empty
`service.name` attribute (located by `serviceNameScan`), else a
configuration error is returned. -/
def validateConfiguration (c : Config) : Option String :=
  if c.ServiceName.length = 0 then
    if serviceNameScan c.Resource then none
    else some serviceNameMissingMsg
  else none

/-- The `PipelineConfig` that `setupTracing` passes to `NewTracePipeline`
(`launcher/launcher.go:277-284`). -/
def tracePipelineConfig (c : Config) : PipelineConfig :=
  { Endpoint := c.SpanExporterEndpoint
    Insecure := c.SpanExporterEndpointInsecure
    Headers := c.Headers
    Resource := c.Resource
    ReportingPeriod := ""
    BatchTimeout := c.BatchTimeout
    Propagators := c.Propagators }

/-- The `PipelineConfig` that `setupMetrics` passes to `NewMetricsPipeline`
(`launcher/launcher.go:294-301`). -/
def metricsPipelineConfig (c : Config) : PipelineConfig :=
  { Endpoint := c.MetricExporterEndpoint
    Insecure := c.MetricExporterEndpointInsecure
    Headers := c.Headers
    Resource := c.Resource
    ReportingPeriod := c.MetricReportingPeriod
    BatchTimeout := c.BatchTimeout
    Propagators := [] }

/-- Embedding of `setupTracing` (`launcher/launcher.go:272-285`): tracing is disabled
(no pipeline, no error) when the span endpoint is empty; otherwise defer
to `NewTracePipeline`. -/
def setupTracing (w : World) (c : Config) : List Event × Except String (Option CbTag) :=
  if c.SpanExporterEndpoint = "" then ([], Except.ok none)
  else
    let r := NewTracePipeline w (tracePipelineConfig c)
    (r.1, r.2.map some)

/-- Embedding of `setupMetrics` (`launcher/launcher.go:289-302`): metrics are disabled
(no pipeline, no error) when `MetricsEnabled` is false; otherwise defer to
`NewMetricsPipeline` — the metric endpoint value is passed through but
never inspected by this gate. -/
def setupMetrics (w : World) (c : Config) : List Event × Except String (Option CbTag) :=
  if !c.MetricsEnabled then ([], Except.ok none)
  else
    let r := NewMetricsPipeline w (metricsPipelineConfig c)
    (r.1, r.2.map some)

/-- Embedding of `Launcher` (`launcher/launcher.go:210-213`). -/
structure Launcher where
  config : Config
  shutdownFuncs : List CbTag
deriving Repr

/-- Embedding of `ConfigureOpentelemetry` (`launcher/launcher.go:304-339`), from the
point the merged `Config` exists: validate (failure is fatal), install the
error handler, run `setupTracing` then `setupMetrics` (a factory error is
fatal, so the remaining factory is skipped), appending each non-`none`
shutdown callback in invocation order. -/
def ConfigureOpentelemetry (w : World) (c : Config) : List Event × Except String Launcher :=
  match validateConfiguration c with
  | some err => ([], Except.error ("configuration error: " ++ err))
  | none =>
    let ev0 := [Event.setErrorHandler]
    let r1 := setupTracing w c
    match r1.2 with
    | Except.error e => (ev0 ++ r1.1, Except.error ("setup error: " ++ e))
    | Except.ok o1 =>
      let r2 := setupMetrics w c
      match r2.2 with
      | Except.error e => (ev0 ++ r1.1 ++ r2.1, Except.error ("setup error: " ++ e))
      | Except.ok o2 =>
        (ev0 ++ r1.1 ++ r2.1,
          Except.ok { config := c, shutdownFuncs := o1.toList ++ o2.toList })

/-- The loop of `Launcher.ShutdownContext` (`launcher/launcher.go:345-351`):
invoke each collected callback in order; a callback error is logged fatally
(`Fatalf` terminates the process, modelled as stopping with `some` error).
Returns the tags invoked, in invocation order, and the fatal error if any. -/
def shutdownRun (w : World) : List CbTag → List CbTag × Option String
  | [] => ([], none)
  | t :: rest =>
    match (runCallback w t).2 with
    | Except.error e => ([t], some e)
    | Except.ok _ =>
      let r := shutdownRun w rest
      (t :: r.1, r.2)

/-- Embedding of `Launcher.ShutdownContext` (`launcher/launcher.go:345-351`): run the
callback loop. The method has a value receiver and mutates nothing, so the
launcher afterwards is returned unchanged as the post-state. -/
def ShutdownContext (w : World) (ls : Launcher) : (List CbTag × Option String) × Launcher :=
  (shutdownRun w ls.shutdownFuncs, ls)

/-- Embedding of `Launcher.Shutdown` (`launcher/launcher.go:341-343`): delegates to
`ShutdownContext` with a background context. -/
def Shutdown (w : World) (ls : Launcher) : (List CbTag × Option String) × Launcher :=
  ShutdownContext w ls

/-- The scan of `newResource` (`launcher/launcher.go:218-223`): is a
non-empty `host.name` attribute already present among the
environment-detected attributes? -/
def hostnameScan (envAttrs : List KeyValue) : Bool :=
  envAttrs.any fun kv => kv.key == AttributeHostName && decide (0 < kv.value.length)

/-- The identity attributes built by `newResource`
(`launcher/launcher.go:225-237`): fixed SDK name, language and version,
then service name and service version when those fields are non-empty. -/
def identityAttributes (ver : String) (c : Config) : List KeyValue :=
  let attributes := [
    KeyValue.mk AttributeTelemetrySDKName "cfobservability",
    KeyValue.mk AttributeTelemetrySDKLanguage "go",
    KeyValue.mk AttributeTelemetrySDKVersion ver]
  let attributes :=
    if 0 < c.ServiceName.length then
      attributes ++ [KeyValue.mk AttributeServiceName c.ServiceName]
    else attributes
  if 0 < c.ServiceVersion.length then
    attributes ++ [KeyValue.mk AttributeServiceVersion c.ServiceVersion]
  else attributes

/-- The loop over `c.resourceAttributes` in `newResource`
(`launcher/launcher.go:239-246`): append each attribute with a non-empty
value, and mark `hostnameSet` when its key is `host.name`. -/
def appendResourceAttributes :
    List (String × String) → Bool → List KeyValue → Bool × List KeyValue
  | [], hostnameSet, acc => (hostnameSet, acc)
  | (k, v) :: rest, hostnameSet, acc =>
    if 0 < v.length then
      appendResourceAttributes rest (hostnameSet || k == AttributeHostName)
        (acc ++ [KeyValue.mk k v])
    else
      appendResourceAttributes rest hostnameSet acc

/-- Embedding of `newResource` (`launcher/launcher.go:215-270`), as the ordered attribute
list handed to the downstream `resource.New` call: scan the
environment-detected attributes for a non-empty `host.name`; build identity
attributes; append caller-supplied attributes (marking `host.name`); if no
source set `host.name`, append the detected host name when detection
succeeds (detection failure is logged and ignored); finally prepend the
environment-detected attributes. `hostDetect` is the outcome of
`os.Hostname()` and `ver` the package `version` constant. -/
def newResource (envAttrs : List KeyValue) (c : Config)
    (hostDetect : Except String String) (ver : String) : List KeyValue :=
  let hostnameSet := hostnameScan envAttrs
  let attributes := identityAttributes ver c
  let step := appendResourceAttributes c.resourceAttributes hostnameSet attributes
  let attributes :=
    if !step.1 then
      match hostDetect with
      | Except.error _ => step.2
      | Except.ok hostname => step.2 ++ [KeyValue.mk AttributeHostName hostname]
    else step.2
  envAttrs ++ attributes

/-- The caller-supplied attributes that survive the non-empty-value filter,
in iteration order. -/
def callerAttributes (c : Config) : List KeyValue :=
  (c.resourceAttributes.filter fun p => 0 < p.2.length).map fun p => KeyValue.mk p.1 p.2

/-- Whether any source (environment detection or caller attributes) set a
non-empty `host.name` before the automatic fallback runs. -/
def hostnameFinal (envAttrs : List KeyValue) (c : Config) : Bool :=
  hostnameScan envAttrs ||
    c.resourceAttributes.any fun p => decide (0 < p.2.length) && p.1 == AttributeHostName

/-- The automatic host-name fallback attribute: present exactly when no
other source set `host.name` and detection succeeded. -/
def autoHost (envAttrs : List KeyValue) (c : Config)
    (hostDetect : Except String String) : List KeyValue :=
  if hostnameFinal envAttrs c then []
  else
    match hostDetect with
    | Except.error _ => []
    | Except.ok hostname => [KeyValue.mk AttributeHostName hostname]

/-- The resource attribute sequence as §4.2 of the spec words it: base
environment-detected attributes, then identity attributes, then the
filtered caller-supplied attributes, then the automatic host-name
fallback — an exact ordered concatenation with no deduplication. -/
def newResourceSpec (envAttrs : List KeyValue) (c : Config)
    (hostDetect : Except String String) (ver : String) : List KeyValue :=
  envAttrs ++ identityAttributes ver c ++ callerAttributes c ++ autoHost envAttrs c hostDetect

/-! ## Concrete instances used by witnesses and counterexamples -/

/-- A world in which every collaborator succeeds. -/
def wOK : World :=
  { traceExporterNew := Except.ok ()
    metricsExporterNew := Except.ok ()
    bspShutdown := Except.ok ()
    traceExporterShutdown := Except.ok ()
    metricsShutdown := Except.ok () }

/-- A concrete baseline configuration (the static defaults of `Config`,
with a service name set). -/
def cBase : Config :=
  { SpanExporterEndpoint := "ingest.commonfate.io:443"
    SpanExporterEndpointInsecure := false
    ServiceName := "svc"
    ServiceVersion := ""
    Headers := []
    MetricExporterEndpoint := "ingest.commonfate.io:443"
    MetricExporterEndpointInsecure := false
    MetricsEnabled := true
    LogLevel := "info"
    Propagators := ["b3"]
    MetricReportingPeriod := "30s"
    BatchTimeout := 5
    resourceAttributes := []
    Resource := [] }

/-- A concrete `PipelineConfig` with a supported propagator list. -/
def pcB3 : PipelineConfig := tracePipelineConfig cBase

/-- A concrete `PipelineConfig` whose propagator list holds only an
unsupported key. -/
def pcBad : PipelineConfig := tracePipelineConfig { cBase with Propagators := ["zz"] }

/-- A launcher holding one registered (trace) shutdown callback. -/
def lsOne : Launcher := { config := cBase, shutdownFuncs := [CbTag.trace] }

/-! ## Helper lemmas -/

/-- A string has length zero exactly when it is empty. -/
lemma string_length_eq_zero_iff (s : String) : s.length = 0 ↔ s = "" := by
  cases s with
  | mk d => simp [String.length, String.ext_iff]

/-- The caller-attribute loop of `newResource` computes, in one pass, the
disjunction marker for `host.name` and the append of the value-filtered
attributes. -/
lemma appendResourceAttributes_eq (as : List (String × String)) (hs : Bool)
    (acc : List KeyValue) :
    appendResourceAttributes as hs acc =
      (hs || as.any (fun p => decide (0 < p.2.length) && p.1 == AttributeHostName),
        acc ++ (as.filter fun p => 0 < p.2.length).map fun p => KeyValue.mk p.1 p.2) := by
  induction as generalizing hs acc with
  | nil => simp [appendResourceAttributes]
  | cons p rest ih =>
    obtain ⟨k, v⟩ := p
    by_cases h : 0 < v.length
    · simp [appendResourceAttributes, h, ih, Bool.or_assoc]
    · simp [appendResourceAttributes, h, ih]

/-- Lemma: `newResource` produces exactly the concatenation described by §4.2 of
the spec: environment attributes, identity attributes, filtered caller
attributes, automatic host-name fallback. -/
lemma newResource_eq_spec (envAttrs : List KeyValue) (c : Config)
    (hostDetect : Except String String) (ver : String) :
    newResource envAttrs c hostDetect ver = newResourceSpec envAttrs c hostDetect ver := by
  simp only [newResource, newResourceSpec, autoHost, hostnameFinal, callerAttributes,
    appendResourceAttributes_eq]
  by_cases hfin : (hostnameScan envAttrs ||
      c.resourceAttributes.any fun p => decide (0 < p.2.length) && p.1 == AttributeHostName) = true
  · simp [hfin, List.append_assoc]
  · cases hostDetect <;> simp [hfin, List.append_assoc]

/-- The identity attributes never carry the `host.name` key. -/
lemma identityAttributes_filter_host (ver : String) (c : Config) :
    (identityAttributes ver c).filter (fun kv => kv.key == AttributeHostName) = [] := by
  unfold identityAttributes
  by_cases h1 : 0 < c.ServiceName.length <;> by_cases h2 : 0 < c.ServiceVersion.length <;>
    simp only [h1, h2, if_true, if_false, reduceIte] <;> rfl

/-- If no caller-supplied pair carries the `host.name` key, the filtered
caller attributes carry none either. -/
lemma caller_filter_host_nil (as : List (String × String))
    (h : ∀ p ∈ as, p.1 ≠ AttributeHostName) :
    ((as.filter fun p => 0 < p.2.length).map fun p => KeyValue.mk p.1 p.2).filter
      (fun kv => kv.key == AttributeHostName) = [] := by
  induction as with
  | nil => rfl
  | cons p rest ih =>
    obtain ⟨k, v⟩ := p
    have hk : k ≠ AttributeHostName := h (k, v) (List.mem_cons_self _ _)
    have hrest := ih fun q hq => h q (List.mem_cons_of_mem _ hq)
    by_cases hv : 0 < v.length
    · simp [hv, hrest, hk]
    · simp [hv, hrest]

/-- With pairwise-distinct keys, a caller-supplied non-empty `host.name`
attribute is the unique `host.name` entry among the filtered caller
attributes. -/
lemma caller_filter_host_single (as : List (String × String)) (v : String)
    (hmem : (AttributeHostName, v) ∈ as) (hv : 0 < v.length)
    (hnd : (as.map Prod.fst).Nodup) :
    ((as.filter fun p => 0 < p.2.length).map fun p => KeyValue.mk p.1 p.2).filter
      (fun kv => kv.key == AttributeHostName) = [KeyValue.mk AttributeHostName v] := by
  induction as with
  | nil => cases hmem
  | cons p rest ih =>
    obtain ⟨k, w⟩ := p
    rw [List.map_cons, List.nodup_cons] at hnd
    rcases List.mem_cons.mp hmem with heq | hmemr
    · injection heq with hk hw
      subst hk
      subst hw
      have hnone : ∀ q ∈ rest, q.1 ≠ AttributeHostName := by
        intro q hq hq1
        apply hnd.1
        have hm : q.1 ∈ rest.map Prod.fst := List.mem_map_of_mem Prod.fst hq
        rwa [hq1] at hm
      simp [hv, caller_filter_host_nil rest hnone]
    · have hk : k ≠ AttributeHostName := by
        intro hkeq
        apply hnd.1
        have hm : (AttributeHostName, v).1 ∈ rest.map Prod.fst :=
          List.mem_map_of_mem Prod.fst hmemr
        simpa [hkeq] using hm
      have hrest := ih hmemr hnd.2
      by_cases hw : 0 < w.length
      · simp [hw, hrest, hk]
      · simp [hw, hrest]

/-- With pairwise-distinct attribute keys, the `break`-after-first-match
scan of `validateConfiguration` finds a non-empty `service.name` attribute
exactly when one exists. -/
lemma serviceNameScan_iff (l : List KeyValue)
    (hnd : (l.map KeyValue.key).Nodup) :
    serviceNameScan l = true ↔
      ∃ kv ∈ l, kv.key = AttributeServiceName ∧ 0 < kv.value.length := by
  induction l with
  | nil => simp [serviceNameScan]
  | cons kv rest ih =>
    rw [List.map_cons, List.nodup_cons] at hnd
    by_cases hk : kv.key = AttributeServiceName
    · have hscan : serviceNameScan (kv :: rest) = decide (0 < kv.value.length) := by
        simp [serviceNameScan, hk]
      have hnotin : ∀ kv2 ∈ rest, kv2.key ≠ AttributeServiceName := by
        intro kv2 h2 h2eq
        apply hnd.1
        have hm : kv2.key ∈ rest.map KeyValue.key := List.mem_map_of_mem KeyValue.key h2
        rwa [h2eq, ← hk] at hm
      rw [hscan]
      constructor
      · intro hval
        exact ⟨kv, List.mem_cons_self _ _, hk, of_decide_eq_true hval⟩
      · rintro ⟨kv2, hmem2, hkey2, hval2⟩
        rcases List.mem_cons.mp hmem2 with heq | hmemr
        · subst heq
          exact decide_eq_true hval2
        · exact absurd hkey2 (hnotin kv2 hmemr)
    · have hscan : serviceNameScan (kv :: rest) = serviceNameScan rest := by
        simp [serviceNameScan, hk]
      rw [hscan, ih hnd.2]
      constructor
      · rintro ⟨kv2, hmem2, hp⟩
        exact ⟨kv2, List.mem_cons_of_mem _ hmem2, hp⟩
      · rintro ⟨kv2, hmem2, hp⟩
        rcases List.mem_cons.mp hmem2 with heq | hmemr
        · subst heq
          exact absurd hp.1 hk
        · exact ⟨kv2, hmemr, hp⟩

/-- The invocation list of the shutdown loop is empty exactly when the
callback list is. -/
lemma shutdownRun_nil_iff (w : World) (l : List CbTag) :
    (shutdownRun w l).1 = [] ↔ l = [] := by
  cases l with
  | nil => simp [shutdownRun]
  | cons t rest =>
    cases hr : (runCallback w t).2 <;> simp [shutdownRun, hr]

/-! ## Claims -/

/-- C4: propagator composition silently skips any requested key not in
the fixed table {b3, baggage, tracecontext, ottrace}: for
`["b3", "unknown-key"]` it succeeds composing only B3; for every list in
which no key is supported it returns a configuration error naming the
supported key set (the keys of the table are exactly
`supportedPropagatorKeys`, which the error message lists). -/
theorem claim_C4_propagator_unknown_skipped_empty_error :
    configurePropagators ["b3", "unknown-key"] = Except.ok [PropagatorKind.b3] ∧
    (∀ requested : List String, (∀ k ∈ requested, propagatorsMap k = none) →
      configurePropagators requested = Except.error unsupportedPropagatorsMsg) ∧
    (∀ k : String, (propagatorsMap k).isSome = true ↔ k ∈ supportedPropagatorKeys) := by
  refine ⟨rfl, ?_, ?_⟩
  · intro requested h
    have hnil : requested.filterMap propagatorsMap = [] :=
      List.filterMap_eq_nil_iff.mpr h
    simp [configurePropagators, hnil]
  · intro k
    unfold propagatorsMap supportedPropagatorKeys
    split_ifs with h1 h2 h3 h4 <;> simp_all

/-- Witness for C4: both a wholly-unsupported list and the empty list hit
the configuration error. -/
theorem claim_C4_witness :
    configurePropagators ["unknown-key"] = Except.error unsupportedPropagatorsMsg ∧
    configurePropagators [] = Except.error unsupportedPropagatorsMsg :=
  ⟨claim_C4_propagator_unknown_skipped_empty_error.2.1 ["unknown-key"] (by decide),
    claim_C4_propagator_unknown_skipped_empty_error.2.1 [] (by decide)⟩

/-- C7: the shutdown callback returned by a successful trace-pipeline
construction first shuts the batching span processor down (its error
discarded) and then the span exporter, and its result is exactly the
exporter's shutdown result, whatever the processor's shutdown outcome. -/
theorem claim_C7_trace_callback_order_and_result (w : World) (c : PipelineConfig)
    (cb : CbTag) (h : (NewTracePipeline w c).2 = Except.ok cb) :
    (runCallback w cb).1 = [Event.bspShutdown, Event.traceExporterShutdown] ∧
    (runCallback w cb).2 = w.traceExporterShutdown ∧
    ∀ r, (runCallback { w with bspShutdown := r } cb).2 = w.traceExporterShutdown := by
  have hcb : cb = CbTag.trace := by
    unfold NewTracePipeline at h
    cases hw : w.traceExporterNew with
    | error e => rw [hw] at h; simp at h
    | ok u =>
      rw [hw] at h
      cases hp : configurePropagators c.Propagators with
      | error e => rw [hp] at h; simp at h
      | ok ps => rw [hp] at h; simpa using h.symm
  subst hcb
  exact ⟨rfl, rfl, fun r => rfl⟩

/-- Witness for C7: a run in which the span exporter builds and the
propagator list is the default `["b3"]`; the batching processor's shutdown
error is discarded. -/
theorem claim_C7_witness :
    (runCallback wOK CbTag.trace).1 = [Event.bspShutdown, Event.traceExporterShutdown] ∧
    (runCallback wOK CbTag.trace).2 = wOK.traceExporterShutdown ∧
    (runCallback { wOK with bspShutdown := Except.error "flush failed" } CbTag.trace).2 =
      wOK.traceExporterShutdown :=
  ⟨(claim_C7_trace_callback_order_and_result wOK pcB3 CbTag.trace rfl).1,
    (claim_C7_trace_callback_order_and_result wOK pcB3 CbTag.trace rfl).2.1,
    (claim_C7_trace_callback_order_and_result wOK pcB3 CbTag.trace rfl).2.2
      (Except.error "flush failed")⟩

/-- C9: for every configuration, `setupMetrics` attempts metrics-pipeline
construction exactly when `MetricsEnabled` is true — the metric endpoint
value (arbitrary here, including empty) never gates the attempt. -/
theorem claim_C9_metrics_attempt_gated_only_by_enabled (w : World) (c : Config) :
    Event.metricsExporterNew ∈ (setupMetrics w c).1 ↔ c.MetricsEnabled = true := by
  cases hm : c.MetricsEnabled with
  | false => simp [setupMetrics, hm]
  | true =>
    cases hw : w.metricsExporterNew <;>
      simp [setupMetrics, NewMetricsPipeline, hm, hw]

/-- C10: when the span exporter was constructed successfully but
propagator composition fails, `NewTracePipeline` returns that error and no
shutdown callback, and the tracer provider is never installed
process-wide. -/
theorem claim_C10_propagator_failure_no_provider_install (w : World)
    (c : PipelineConfig) (e : String)
    (hexp : w.traceExporterNew = Except.ok ())
    (hprop : configurePropagators c.Propagators = Except.error e) :
    (NewTracePipeline w c).2 = Except.error e ∧
    Event.setTracerProvider ∉ (NewTracePipeline w c).1 := by
  unfold NewTracePipeline
  rw [hexp, hprop]
  exact ⟨rfl, by simp⟩

/-- Witness for C10: a propagator list holding only the unsupported key
`"zz"` in an otherwise healthy world. -/
theorem claim_C10_witness :
    (NewTracePipeline wOK pcBad).2 = Except.error unsupportedPropagatorsMsg ∧
    Event.setTracerProvider ∉ (NewTracePipeline wOK pcBad).1 :=
  claim_C10_propagator_failure_no_provider_install wOK pcBad
    unsupportedPropagatorsMsg rfl rfl

/-- A non-empty string has positive length. -/
lemma string_ne_empty_iff (s : String) : s ≠ "" ↔ 0 < s.length := by
  constructor
  · intro h
    refine Nat.pos_of_ne_zero fun h0 => h ?_
    exact (string_length_eq_zero_iff s).mp h0
  · intro h h0
    subst h0
    simp at h

/-- C5: with the built Resource's attribute keys unique (the data-model
invariant for resources), validation fails with the configuration error
exactly when the explicit `ServiceName` field is empty and no non-empty
`service.name` attribute is in the Resource; it succeeds exactly when
either is non-empty. -/
theorem claim_C5_service_name_validation (c : Config)
    (hnd : (c.Resource.map KeyValue.key).Nodup) :
    (validateConfiguration c = some serviceNameMissingMsg ↔
      (c.ServiceName = "" ∧
        ∀ kv ∈ c.Resource, kv.key = AttributeServiceName → kv.value = "")) ∧
    (validateConfiguration c = none ↔
      (c.ServiceName ≠ "" ∨
        ∃ kv ∈ c.Resource, kv.key = AttributeServiceName ∧ kv.value ≠ "")) := by
  by_cases hs : c.ServiceName.length = 0
  · have hse : c.ServiceName = "" := (string_length_eq_zero_iff _).mp hs
    by_cases hscan : serviceNameScan c.Resource = true
    · obtain ⟨kv, hmem, hkey, hval⟩ := (serviceNameScan_iff c.Resource hnd).mp hscan
      have hvne : kv.value ≠ "" := (string_ne_empty_iff _).mpr hval
      have hvc : validateConfiguration c = none := by
        simp [validateConfiguration, hs, hscan]
      rw [hvc]
      constructor
      · constructor
        · intro h
          exact Option.noConfusion h
        · rintro ⟨_, hall⟩
          exact absurd (hall kv hmem hkey) hvne
      · constructor
        · intro _
          exact Or.inr ⟨kv, hmem, hkey, hvne⟩
        · intro _
          rfl
    · have hvc : validateConfiguration c = some serviceNameMissingMsg := by
        simp [validateConfiguration, hs, hscan]
      have hall : ∀ kv ∈ c.Resource, kv.key = AttributeServiceName → kv.value = "" := by
        intro kv hmem hkey
        by_contra hne
        exact hscan ((serviceNameScan_iff c.Resource hnd).mpr
          ⟨kv, hmem, hkey, (string_ne_empty_iff _).mp hne⟩)
      rw [hvc]
      constructor
      · constructor
        · intro _
          exact ⟨hse, hall⟩
        · intro _
          rfl
      · constructor
        · intro h
          exact Option.noConfusion h
        · rintro (hne | ⟨kv, hmem, hkey, hvne⟩)
          · exact absurd hse hne
          · exact absurd (hall kv hmem hkey) hvne
  · have hse : c.ServiceName ≠ "" := by
      intro h
      apply hs
      rw [h]
      rfl
    have hvc : validateConfiguration c = none := by
      simp [validateConfiguration, hs]
    rw [hvc]
    constructor
    · constructor
      · intro h
        exact Option.noConfusion h
      · rintro ⟨h, _⟩
        exact absurd h hse
    · constructor
      · intro _
        exact Or.inl hse
      · intro _
        rfl

/-- Witness for C5: an empty service name with an empty resource fails
validation with the configuration error. -/
theorem claim_C5_witness :
    validateConfiguration { cBase with ServiceName := "" } = some serviceNameMissingMsg :=
  (claim_C5_service_name_validation { cBase with ServiceName := "" } (by decide)).1.mpr
    ⟨rfl, by simp [cBase]⟩

/-- C2: with an empty span endpoint, metrics enabled and a non-empty
metric endpoint (and a run that reaches the end: validation and the
metrics factory succeed), orchestration registers exactly the metrics
shutdown callback; with the span endpoint empty and metrics disabled it
registers no callback and shutdown invokes nothing. -/
theorem claim_C2_gating_callback_counts :
    (∀ (w : World) (c : Config), c.SpanExporterEndpoint = "" → c.MetricsEnabled = true →
      c.MetricExporterEndpoint ≠ "" → validateConfiguration c = none →
      w.metricsExporterNew = Except.ok () →
      (ConfigureOpentelemetry w c).2 =
        Except.ok { config := c, shutdownFuncs := [CbTag.metrics] }) ∧
    (∀ (w : World) (c : Config), c.SpanExporterEndpoint = "" → c.MetricsEnabled = false →
      validateConfiguration c = none →
      (ConfigureOpentelemetry w c).2 =
        Except.ok { config := c, shutdownFuncs := [] } ∧
      (ShutdownContext w { config := c, shutdownFuncs := ([] : List CbTag) }).1 =
        ([], none)) := by
  constructor
  · intro w c hspan hmet hmep hval hme
    simp [ConfigureOpentelemetry, hval, setupTracing, hspan, setupMetrics, hmet,
      NewMetricsPipeline, hme, Except.map]
  · intro w c hspan hmet hval
    constructor
    · simp [ConfigureOpentelemetry, hval, setupTracing, hspan, setupMetrics, hmet,
        Except.map]
    · simp [ShutdownContext, shutdownRun]

/-- Witness for C2: both scenarios at a concrete configuration with the
default (non-empty) metric endpoint. -/
theorem claim_C2_witness :
    ((ConfigureOpentelemetry wOK { cBase with SpanExporterEndpoint := "" }).2 =
      Except.ok { config := { cBase with SpanExporterEndpoint := "" },
                  shutdownFuncs := [CbTag.metrics] }) ∧
    ((ConfigureOpentelemetry wOK
        { cBase with SpanExporterEndpoint := "", MetricsEnabled := false }).2 =
      Except.ok { config := { cBase with SpanExporterEndpoint := "", MetricsEnabled := false },
                  shutdownFuncs := [] }) ∧
    ((ShutdownContext wOK
        { config := { cBase with SpanExporterEndpoint := "", MetricsEnabled := false },
          shutdownFuncs := ([] : List CbTag) }).1 = ([], none)) :=
  ⟨claim_C2_gating_callback_counts.1 wOK { cBase with SpanExporterEndpoint := "" }
      rfl rfl (by decide) rfl rfl,
    (claim_C2_gating_callback_counts.2 wOK
      { cBase with SpanExporterEndpoint := "", MetricsEnabled := false } rfl rfl rfl).1,
    (claim_C2_gating_callback_counts.2 wOK
      { cBase with SpanExporterEndpoint := "", MetricsEnabled := false } rfl rfl rfl).2⟩

/-- C6: when both pipelines are enabled and both factories succeed,
exactly the trace and metrics callbacks are collected, in that order, and
shutdown invokes them in exactly that registration order. -/
theorem claim_C6_shutdown_order_trace_then_metrics (w : World) (c : Config)
    (ps : List PropagatorKind)
    (hspan : c.SpanExporterEndpoint ≠ "")
    (hmet : c.MetricsEnabled = true)
    (hval : validateConfiguration c = none)
    (hte : w.traceExporterNew = Except.ok ())
    (hprop : configurePropagators c.Propagators = Except.ok ps)
    (hme : w.metricsExporterNew = Except.ok ())
    (hts : w.traceExporterShutdown = Except.ok ())
    (hms : w.metricsShutdown = Except.ok ()) :
    (ConfigureOpentelemetry w c).2 =
      Except.ok { config := c, shutdownFuncs := [CbTag.trace, CbTag.metrics] } ∧
    (ShutdownContext w { config := c, shutdownFuncs := [CbTag.trace, CbTag.metrics] }).1 =
      ([CbTag.trace, CbTag.metrics], none) := by
  constructor
  · simp [ConfigureOpentelemetry, hval, setupTracing, hspan, NewTracePipeline, hte,
      tracePipelineConfig, hprop, setupMetrics, hmet, NewMetricsPipeline, hme, Except.map]
  · simp [ShutdownContext, shutdownRun, runCallback, traceShutdownCallback,
      metricsShutdownCallback, hts, hms]

/-- Witness for C6: the default configuration (both endpoints set, metrics
enabled, propagators `["b3"]`) in an all-success world. -/
theorem claim_C6_witness :
    (ConfigureOpentelemetry wOK cBase).2 =
      Except.ok { config := cBase, shutdownFuncs := [CbTag.trace, CbTag.metrics] } ∧
    (ShutdownContext wOK { config := cBase, shutdownFuncs := [CbTag.trace, CbTag.metrics] }).1 =
      ([CbTag.trace, CbTag.metrics], none) :=
  claim_C6_shutdown_order_trace_then_metrics wOK cBase [PropagatorKind.b3]
    (by decide) rfl rfl rfl rfl rfl rfl rfl

/-- C1 counterexample: for a launcher holding one successfully-constructed
trace pipeline, the first shutdown succeeds, yet the callback list is NOT
empty afterwards (the method has a value receiver and never clears it),
and the re-invocation invokes that callback again — not "no callbacks". -/
theorem claim_C1_counterexample :
    (ShutdownContext wOK lsOne).1.2 = none ∧
    ((ShutdownContext wOK lsOne).2).shutdownFuncs = [CbTag.trace] ∧
    (ShutdownContext wOK ((ShutdownContext wOK lsOne).2)).1.1 = [CbTag.trace] ∧
    [CbTag.trace] ≠ ([] : List CbTag) :=
  ⟨rfl, rfl, rfl, by decide⟩

/-- C1 (amended): re-invoking shutdown after a successful first shutdown
does not panic or block (it is a total function here) but is NOT a no-op
on an emptied list: the launcher is returned unchanged with its callback
list intact, the second invocation repeats exactly the first (each
registered callback invoked again, in the same order — duplicate
teardown), and the invocation list is empty only when no callback was
ever registered. -/
theorem claim_C1_amended_repeat_shutdown (w : World) (ls : Launcher)
    (_hfirst : (ShutdownContext w ls).1.2 = none) :
    (ShutdownContext w ls).2 = ls ∧
    ShutdownContext w ((ShutdownContext w ls).2) = ShutdownContext w ls ∧
    ((ShutdownContext w ls).1.1 = [] ↔ ls.shutdownFuncs = []) :=
  ⟨rfl, rfl, shutdownRun_nil_iff w ls.shutdownFuncs⟩

/-- Witness for C1 (amended): the one-callback launcher after a successful
first shutdown. -/
theorem claim_C1_amended_witness :
    (ShutdownContext wOK lsOne).2 = lsOne ∧
    ShutdownContext wOK ((ShutdownContext wOK lsOne).2) = ShutdownContext wOK lsOne ∧
    ((ShutdownContext wOK lsOne).1.1 = [] ↔ lsOne.shutdownFuncs = []) :=
  claim_C1_amended_repeat_shutdown wOK lsOne rfl

/-- C8: the resource builder's output is the exact ordered concatenation
of the environment-detected attributes, the identity attributes, the
value-filtered caller attributes and the automatic host-name fallback,
with no deduplication — `newResourceSpec` spells out that concatenation
in the spec's words. -/
theorem claim_C8_resource_concatenation (envAttrs : List KeyValue) (c : Config)
    (hostDetect : Except String String) (ver : String) :
    newResource envAttrs c hostDetect ver = newResourceSpec envAttrs c hostDetect ver :=
  newResource_eq_spec envAttrs c hostDetect ver

/-- C3: a caller-supplied non-empty `host.name` attribute (keys unique,
as for a Go map) suppresses the automatic host-name fallback entirely —
the built attribute list does not depend on the host-detection outcome —
and the last `host.name` entry of the built list (the one the downstream
last-wins attribute-set consumer retains) is the caller's value. -/
theorem claim_C3_host_override_suppresses_detection (envAttrs : List KeyValue)
    (c : Config) (ver v : String)
    (hmem : (AttributeHostName, v) ∈ c.resourceAttributes)
    (hv : 0 < v.length)
    (hnd : (c.resourceAttributes.map Prod.fst).Nodup) :
    (∀ hd1 hd2 : Except String String,
      newResource envAttrs c hd1 ver = newResource envAttrs c hd2 ver) ∧
    (∀ hd : Except String String,
      ((newResource envAttrs c hd ver).filter
        (fun kv => kv.key == AttributeHostName)).getLast? =
        some (KeyValue.mk AttributeHostName v)) := by
  have hfin : hostnameFinal envAttrs c = true := by
    have hany : (c.resourceAttributes.any
        fun p => decide (0 < p.2.length) && p.1 == AttributeHostName) = true :=
      List.any_eq_true.mpr ⟨(AttributeHostName, v), hmem, by simp [hv]⟩
    simp [hostnameFinal, hany]
  have hcf : (callerAttributes c).filter (fun kv => kv.key == AttributeHostName) =
      [KeyValue.mk AttributeHostName v] :=
    caller_filter_host_single c.resourceAttributes v hmem hv hnd
  constructor
  · intro hd1 hd2
    rw [newResource_eq_spec, newResource_eq_spec]
    unfold newResourceSpec
    simp [autoHost, hfin]
  · intro hd
    rw [newResource_eq_spec]
    unfold newResourceSpec
    rw [List.filter_append, List.filter_append, List.filter_append,
      identityAttributes_filter_host, hcf]
    simp only [autoHost, hfin, if_true, List.filter_nil, List.append_nil]
    rw [List.getLast?_concat]

/-- Witness for C3: caller attributes `{host.name ↦ "H"}`; the built list
is the same whether detection returns "auto" or fails, and its last
`host.name` entry is "H". -/
theorem claim_C3_witness :
    (newResource [KeyValue.mk "env.k" "e"]
        { cBase with resourceAttributes := [("host.name", "H")] }
        (Except.ok "auto") "v1" =
      newResource [KeyValue.mk "env.k" "e"]
        { cBase with resourceAttributes := [("host.name", "H")] }
        (Except.error "detection failed") "v1") ∧
    ((newResource [KeyValue.mk "env.k" "e"]
        { cBase with resourceAttributes := [("host.name", "H")] }
        (Except.ok "auto") "v1").filter
      (fun kv => kv.key == AttributeHostName)).getLast? =
      some (KeyValue.mk AttributeHostName "H") :=
  ⟨(claim_C3_host_override_suppresses_detection [KeyValue.mk "env.k" "e"]
      { cBase with resourceAttributes := [("host.name", "H")] } "v1" "H"
      (by decide) (by decide) (by decide)).1 (Except.ok "auto") (Except.error "detection failed"),
    (claim_C3_host_override_suppresses_detection [KeyValue.mk "env.k" "e"]
      { cBase with resourceAttributes := [("host.name", "H")] } "v1" "H"
      (by decide) (by decide) (by decide)).2 (Except.ok "auto")⟩

/-- Witness for C8: the concatenation identity evaluated at a concrete
input. -/
theorem claim_C8_witness :
    newResource [KeyValue.mk "env.k" "e"] cBase (Except.ok "auto") "v1" =
      newResourceSpec [KeyValue.mk "env.k" "e"] cBase (Except.ok "auto") "v1" :=
  claim_C8_resource_concatenation [KeyValue.mk "env.k" "e"] cBase (Except.ok "auto") "v1"

/-- Witness for C9: with an EMPTY metric endpoint and metrics enabled, the
metrics exporter construction is still attempted. -/
theorem claim_C9_witness :
    Event.metricsExporterNew ∈
      (setupMetrics wOK { cBase with MetricExporterEndpoint := "" }).1 ↔
    ({ cBase with MetricExporterEndpoint := "" } : Config).MetricsEnabled = true :=
  claim_C9_metrics_attempt_gated_only_by_enabled wOK
    { cBase with MetricExporterEndpoint := "" }

end Observability
